import Mathlib

/-!
# Verification of the check/flag execution engine (`dp_tools/core/check_model.py`)

A shallow embedding of the check-model module: severity codes (`FlagCode`),
`Check` construction (description templating, id-format validation, the
process-wide `allChecks` registry, injection of the DEV_UNHANDLED message),
`Flag` construction, exception-safe `Check.validate`, `copy_with_new_config`,
and the `VVProtocol.validate_all` aggregation.

Python's mutable objects are modelled by explicit state passing: a state `St`
holds the list of all constructed checks (doubling as the `Check.allChecks`
registry, since every successfully constructed check is appended to it) and a
heap of `flag_desc` dictionaries (so that the in-place mutation and sharing of
those dictionaries is observable).  Python dictionaries are association lists
with first-match lookup and replace-in-place update.  Exceptions are values of
type `Exc`; fallible operations return `Except Exc`.  Machine details that the
source relies on and that matter here (Python `enum` value aliasing, `dict`
insertion semantics, `str.format` key errors, `re` matching of the id pattern)
are each modelled explicitly next to the definition that uses them.
-/

namespace CheckModel

/-! ## Python dictionaries as association lists -/

/-- Lookup in a Python dict modelled as an association list (first match). -/
def dictGet? {α β : Type} [DecidableEq α] (d : List (α × β)) (k : α) : Option β :=
  (d.find? (fun p => decide (p.1 = k))).map (·.2)

/-- Python `d[k] = v`: replace the value in place if the key is present
(keeping its position), otherwise append the new entry. -/
def dictSet {α β : Type} [DecidableEq α] : List (α × β) → α → β → List (α × β)
  | [], k, v => [(k, v)]
  | p :: rest, k, v => if p.1 = k then (k, v) :: rest else p :: dictSet rest k v

/-- `Except.isOk`-style discriminator used to state success/failure of
fallible operations. -/
def exceptIsOk {ε α : Type} : Except ε α → Bool
  | .ok _ => true
  | .error _ => false

deriving instance DecidableEq for Except

/-! ## Python exceptions

Exception classes with the (relevant fragment of the) Python class
hierarchy; `except C` catches an exception instance whose class is `C` or a
subclass of `C`. -/

inductive ExcClass : Type where
  | baseException
  | exception
  | assertionError
  | lookupError
  | keyError
  | valueError
  | typeError
  | keyboardInterrupt
deriving DecidableEq, Repr

/-- Proper ancestors of an exception class in the Python hierarchy
(`KeyError < LookupError < Exception < BaseException`,
`KeyboardInterrupt < BaseException`). -/
def ExcClass.ancestors : ExcClass → List ExcClass
  | .baseException => []
  | .exception => [.baseException]
  | .assertionError => [.exception, .baseException]
  | .lookupError => [.exception, .baseException]
  | .keyError => [.lookupError, .exception, .baseException]
  | .valueError => [.exception, .baseException]
  | .typeError => [.exception, .baseException]
  | .keyboardInterrupt => [.baseException]

/-- `issubclass c d` (reflexive). -/
def ExcClass.isSubclassOf (c d : ExcClass) : Bool :=
  decide (c = d) || (c.ancestors.contains d)

/-- An exception instance: its class and its message (`str(e)`). -/
structure Exc : Type where
  cls : ExcClass
  msg : String
deriving DecidableEq, Repr

/-- Whether `except CLASSES` catches the instance `e`
(`isinstance(e, CLASSES)`). -/
def pyCatches (classes : List ExcClass) (e : Exc) : Bool :=
  classes.any (fun c => e.cls.isSubclassOf c)

/-- `ALLOWED_DEV_EXCEPTIONS = (Exception)`: the process-configurable class
tuple used by the `except` clause of `Check.validate`.  Tests may monkeypatch
it (modelled by passing a different list to `Check.validate`). -/
def ALLOWED_DEV_EXCEPTIONS : List ExcClass := [.exception]

/-! ## FlagCode

The source enumerates 19 names.  Python `enum.Enum` deduplicates members by
value: a name whose value equals an already-defined member's value becomes an
*alias* of that member (`FlagCode.HALT2 is FlagCode.HALT1`).  The inductive
below therefore has one constructor per *canonical* member (first name per
value), and `FlagCode.ofName` resolves any of the 19 source names to the
member it denotes. -/

/-- The name/value assignments of the `FlagCode` enum body, in source order. -/
def flagCodeDefs : List (String × Nat) :=
  [("DEV_HANDLED", 90), ("DEV_UNHANDLED", 91),
   ("HALT1", 80), ("HALT2", 80), ("HALT3", 80), ("HALT4", 80), ("HALT5", 80),
   ("RED1", 50), ("RED2", 50), ("RED3", 50), ("RED4", 50), ("RED5", 50),
   ("YELLOW1", 30), ("YELLOW2", 30), ("YELLOW3", 30), ("YELLOW4", 30), ("YELLOW5", 30),
   ("GREEN", 20), ("INFO", 10)]

/-- The canonical (non-alias) members of `FlagCode`. -/
inductive FlagCode : Type where
  | DEV_HANDLED
  | DEV_UNHANDLED
  | HALT1
  | RED1
  | YELLOW1
  | GREEN
  | INFO
deriving DecidableEq, Repr

/-- Integer rank (`.value`) of a canonical member. -/
def FlagCode.rank : FlagCode → Nat
  | .DEV_HANDLED => 90
  | .DEV_UNHANDLED => 91
  | .HALT1 => 80
  | .RED1 => 50
  | .YELLOW1 => 30
  | .GREEN => 20
  | .INFO => 10

/-- The value assigned to a name in the enum body. -/
def flagCodeValue? (n : String) : Option Nat :=
  (flagCodeDefs.find? (fun p => decide (p.1 = n))).map (·.2)

/-- The canonical name for a name: the first name in the body carrying the
same value (Python enum alias resolution). -/
def flagCodeCanonical? (n : String) : Option String :=
  (flagCodeValue? n).bind fun v =>
    (flagCodeDefs.find? (fun p => decide (p.2 = v))).map (·.1)

/-- Canonical names to members. -/
def flagCodeMember? : String → Option FlagCode
  | "DEV_HANDLED" => some .DEV_HANDLED
  | "DEV_UNHANDLED" => some .DEV_UNHANDLED
  | "HALT1" => some .HALT1
  | "RED1" => some .RED1
  | "YELLOW1" => some .YELLOW1
  | "GREEN" => some .GREEN
  | "INFO" => some .INFO
  | _ => none

/-- `FlagCode.NAME`: the member (possibly via an alias name) denoted by a
name of the enum body. -/
def FlagCode.ofName (n : String) : Option FlagCode :=
  (flagCodeCanonical? n).bind flagCodeMember?

/-! ## `str.format` with keyword arguments

`"...{name}...".format(**cfg)` substitutes `cfg[name]` for each `{name}`
field, raising `KeyError(name)` when the key is missing and `ValueError` on a
malformed template (`{{`/`}}` escapes are handled; positional/format-spec
fields do not occur in this code base and are not modelled).  The scan is a
single structural pass; the first argument is `none` outside a replacement
field and `some acc` (accumulated name, reversed) inside one. -/

def fmtGo (cfg : List (String × String)) : Option (List Char) → List Char → Except Exc (List Char)
  | none, [] => .ok []
  | some _, [] => .error { cls := .valueError, msg := "Single \x7b encountered in format string" }
  | none, '{' :: '{' :: rest => (fmtGo cfg none rest).map (fun t => '{' :: t)
  | none, '}' :: '}' :: rest => (fmtGo cfg none rest).map (fun t => '}' :: t)
  | none, '{' :: rest => fmtGo cfg (some []) rest
  | none, '}' :: _ => .error { cls := .valueError, msg := "Single \x7d encountered in format string" }
  | none, c :: rest => (fmtGo cfg none rest).map (fun t => c :: t)
  | some acc, '}' :: rest =>
    match dictGet? cfg (String.mk acc.reverse) with
    | none => .error { cls := .keyError, msg := String.mk acc.reverse }
    | some v => (fmtGo cfg none rest).map (fun t => v.data ++ t)
  | some acc, c :: rest => fmtGo cfg (some (c :: acc)) rest

/-- `template.format(**cfg)`. -/
def pyFormat (template : String) (cfg : List (String × String)) : Except Exc String :=
  (fmtGo cfg none template.data).map String.mk

/-- The replacement-field names a template references, in order (`none` when
the template is malformed).  Same scan structure as `fmtGo`. -/
def keysGo : Option (List Char) → List Char → Option (List String)
  | none, [] => some []
  | some _, [] => none
  | none, '{' :: '{' :: rest => keysGo none rest
  | none, '}' :: '}' :: rest => keysGo none rest
  | none, '{' :: rest => keysGo (some []) rest
  | none, '}' :: _ => none
  | none, _ :: rest => keysGo none rest
  | some acc, '}' :: rest => (keysGo none rest).map (fun ks => String.mk acc.reverse :: ks)
  | some acc, c :: rest => keysGo (some (c :: acc)) rest

/-- The placeholder keys of a template. -/
def templateKeys (template : String) : Option (List String) :=
  keysGo none template.data

/-! ## The check-id pattern

`re.match(r"^(COMPONENT|SAMPLE|DATASET)_\D*_\d\d\d\d$", id)`.  The accepted
language is: one of the three scope words, `'_'`, a run of non-digit
characters, `'_'`, four digits — and, because Python's `$` also matches just
before a final newline, the same with one trailing `'\n'`.  Digits are
modelled as ASCII digits (`Char.isDigit`), which agrees with `\d`/`\D` on all
ASCII input. -/

/-- The scope alternation of the id pattern. -/
def scopeNames : List String := ["COMPONENT", "SAMPLE", "DATASET"]

/-- Strip a literal leading segment, returning the remainder. -/
def chopLead : List Char → List Char → Option (List Char)
  | [], l => some l
  | _ :: _, [] => none
  | p :: ps, c :: cs => if p = c then chopLead ps cs else none

/-- Match `\D*_\d\d\d\d` against a whole list: the last four characters are
digits, preceded by `'_'`, preceded only by non-digits. -/
def matchTail (l : List Char) : Bool :=
  match l.reverse with
  | d4 :: d3 :: d2 :: d1 :: '_' :: w =>
    d1.isDigit && d2.isDigit && d3.isDigit && d4.isDigit &&
      w.all (fun c => !c.isDigit)
  | _ => false

/-- Match the full pattern (without the `$`-newline allowance). -/
def checkIdCore (l : List Char) : Bool :=
  scopeNames.any fun sc =>
    match chopLead (sc.data ++ ['_']) l with
    | some rest => matchTail rest
    | none => false

/-- `re.match(r"^(COMPONENT|SAMPLE|DATASET)_\D*_\d\d\d\d$", s)` is not
`None`: the core pattern matches `s`, or `s` ends in a newline and the core
pattern matches the rest (Python `$` matches before a final newline). -/
def checkIdMatch (s : String) : Bool :=
  checkIdCore s.data ||
    (match s.data.getLast? with
     | some c => decide (c = '\n') && checkIdCore s.data.dropLast
     | none => false)

/-! ## Data model

Mutable Python objects live in the state `St`.  A `Check`'s `flag_desc`
field holds the *index* of its dictionary in `St.flagDescs` (Python object
identity of the shared dict), and `validate_func` holds the index of the
rule body in a function table `VTable` (Python function object identity);
the functions themselves are kept outside the state to keep `St` first
order.  `St.allChecks` is both the heap of constructed checks and the
class-level `Check.allChecks` registry: `__post_init__` appends every
successfully constructed check to it, and a check object whose construction
fails part-way is unreachable and never observed, so the two coincide. -/

/-- A Python value as far as this module observes one: strings, function
objects, exception instances, `None`. -/
inductive PyVal : Type where
  | strV : String → PyVal
  | funcV : Nat → PyVal
  | excV : Exc → PyVal
  | noneV
deriving DecidableEq, Repr

/-- `str(v)`/`format(v)`: how a value renders inside a formatted message.
`str` of an exception is its message; `str` of a function object is its
(nondeterministic in Python, fixed here) `<function N>` spelling. -/
def pyStr : PyVal → String
  | .strV s => s
  | .funcV n => "<function " ++ toString n ++ ">"
  | .excV e => e.msg
  | .noneV => "None"

/-- The result record of one check execution (`Flag` dataclass):
severity code, owning check (by registry index), the message arguments and
the rendered message.  Immutable after construction. -/
structure Flag : Type where
  code : FlagCode
  checkRef : Nat
  message_args : List (String × PyVal)
  message : String
deriving DecidableEq, Repr

/-- The `Check` dataclass.  `proto_description` is `_proto_description`
(the unformatted template saved by `__post_init__`); `description` is the
formatted text; `flag_desc` is the index of the shared message dictionary in
`St.flagDescs`; `validate_func` the index of the rule body in the function
table; `flags` the append-only flag history. -/
structure Check : Type where
  proto_description : String
  description : String
  id : String
  flag_desc : Nat
  validate_func : Nat
  flags : List Flag
  config : List (String × String)
deriving DecidableEq, Repr

/-- The mutable process state: the `Check.allChecks` registry (also the heap
of check objects, indexed by construction order) and the heap of `flag_desc`
dictionaries. -/
structure St : Type where
  allChecks : List Check
  flagDescs : List (List (FlagCode × String))
deriving DecidableEq, Repr

/-- In-place mutation `flag_desc[code] = template` of the dictionary at heap
index `r`. -/
def St.setFlagDesc (st : St) (r : Nat) (code : FlagCode) (template : String) : St :=
  { st with flagDescs := st.flagDescs.set r (dictSet (st.flagDescs.getD r []) code template) }

/-- The return value of a `validate_func`: a `Flag`, or any other value
(the engine does not constrain the shape). -/
inductive VRet : Type where
  | flagR : Flag → VRet
  | valR : PyVal → VRet
deriving DecidableEq, Repr

/-- A rule body: receives the state, the owning check (registry index) and
the validation arguments; returns a value or raises, and may have mutated
the state either way (Python side effects survive an exception). -/
abbrev VFunc : Type := St → Nat → List PyVal → Except Exc VRet × St

/-- The table giving the function object for each `validate_func` index. -/
abbrev VTable : Type := Nat → VFunc

/-- Modelled from the spec: `dp_tools.core.model_commons.strict_type_checks`
is imported by the source but its module is not under `src/`.  The spec says
Flag construction fails "if any field fails a strict type/shape check"; the
fields of `Flag` are statically typed in this embedding, so the check always
passes. -/
def strict_type_checks (_f : Flag) : Bool := true

/-- The message template injected for `FlagCode.DEV_UNHANDLED` by
`Check.__post_init__`. -/
def devUnhandledTemplate : String := "An unhandled exception occured in {function}: {e}"

/-! ## Operations -/

/-- `Check(description, id, flag_desc, validate_func, config)` including
`__post_init__` (`check_model.py` lines 69-93): format the description
against the config; assert the id pattern; assert process-wide id
uniqueness against `allChecks`; append to `allChecks`; inject the
DEV_UNHANDLED template into the shared `flag_desc` dictionary.  Returns the
registry index of the new check and the new state, or the exception the
constructor raised (in which case no state was mutated: the failed asserts
all precede the two mutations). -/
def Check.construct (st : St) (description : String) (id : String)
    (flag_desc : Nat) (validate_func : Nat) (config : List (String × String)) :
    Except Exc (Nat × St) :=
  match pyFormat description config with
  | .error e => .error e
  | .ok desc =>
    if checkIdMatch id = false then
      .error { cls := .assertionError,
               msg := "Valid Check ID format: SCOPE_WORD_dddd where d is any digit" }
    else if st.allChecks.any (fun c => decide (c.id = id)) then
      .error { cls := .assertionError, msg := "CheckID already used, try another ID" }
    else
      let c : Check :=
        { proto_description := description, description := desc, id := id,
          flag_desc := flag_desc, validate_func := validate_func,
          flags := [], config := config }
      let st1 : St := { st with allChecks := st.allChecks ++ [c] }
      .ok (st.allChecks.length, st1.setFlagDesc flag_desc .DEV_UNHANDLED devUnhandledTemplate)

/-- `Flag(code, check, message_args)` including `__post_init__`
(`check_model.py` lines 127-138): look the template up in the owning
check's `flag_desc` (KeyError if the code is not a key), format it with the
message arguments, run the strict type checks, and append the flag to
`check.flags`.  On an exception no mutation has happened. -/
def Flag.construct (st : St) (code : FlagCode) (checkRef : Nat)
    (message_args : List (String × PyVal)) : Except Exc (Flag × St) :=
  match st.allChecks[checkRef]? with
  | none => .error { cls := .typeError, msg := "check is not a Check" }
  | some c =>
    match dictGet? (st.flagDescs.getD c.flag_desc []) code with
    | none => .error { cls := .keyError, msg := "flag code not in flag_desc" }
    | some template =>
      match pyFormat template (message_args.map (fun p => (p.1, pyStr p.2))) with
      | .error e => .error e
      | .ok message =>
        let f : Flag := { code := code, checkRef := checkRef,
                          message_args := message_args, message := message }
        if strict_type_checks f then
          .ok (f, { st with allChecks := st.allChecks.set checkRef { c with flags := c.flags ++ [f] } })
        else
          .error { cls := .typeError, msg := "strict type checks failed" }

/-- `Check.validate(*args)` (`check_model.py` lines 95-106): call
`validate_func(self, *args)`; on an exception caught by
`except ALLOWED_DEV_EXCEPTIONS` (the `allowed` argument; `log.critical` has
no modelled effect), construct and return a DEV_UNHANDLED flag whose
message arguments are the function object and the exception; any other
exception propagates. -/
def Check.validate (tbl : VTable) (allowed : List ExcClass) (st : St) (ref : Nat)
    (args : List PyVal) : Except Exc VRet × St :=
  match st.allChecks[ref]? with
  | none => (.error { cls := .typeError, msg := "check is not a Check" }, st)
  | some c =>
    match tbl c.validate_func st ref args with
    | (.ok v, st1) => (.ok v, st1)
    | (.error e, st1) =>
      if pyCatches allowed e then
        match st1.allChecks[ref]? with
        | none => (.error { cls := .typeError, msg := "check is not a Check" }, st1)
        | some c1 =>
          match Flag.construct st1 .DEV_UNHANDLED ref
              [("function", .funcV c1.validate_func), ("e", .excV e)] with
          | .ok (f, st2) => (.ok (.flagR f), st2)
          | .error e2 => (.error e2, st1)
      else
        (.error e, st1)

/-- `Check.copy_with_new_config(id, config)` (`check_model.py` lines
108-115): construct a new `Check` from the *unformatted* description
template, the same `flag_desc` dictionary object and the same
`validate_func`, with the fresh id and config. -/
def Check.copy_with_new_config (st : St) (ref : Nat) (id : String)
    (config : List (String × String)) : Except Exc (Nat × St) :=
  match st.allChecks[ref]? with
  | none => .error { cls := .typeError, msg := "check is not a Check" }
  | some c => Check.construct st c.proto_description id c.flag_desc c.validate_func config

/-! ## VVProtocol

The abstract orchestrator.  Its three abstract methods are parameters
(`σ` is whatever state a concrete subclass's methods read and update,
threaded in call order; `Ent` its opaque entity keys).  `_flags` is the
three-way mapping initialized empty by `__init__` and merged into by
`validate_all` via `dict.update`. -/

/-- A Python dict, as the entry list of an association list. -/
structure PyDict (α β : Type) : Type where
  entries : List (α × β)
deriving DecidableEq, Repr

/-- Dict lookup. -/
def PyDict.get? {α β : Type} [DecidableEq α] (d : PyDict α β) (k : α) : Option β :=
  dictGet? d.entries k

/-- `self.update(other)`: assign every entry of `other`, in order, into
`self` (existing keys get their value replaced, new keys are appended). -/
def PyDict.update {α β : Type} [DecidableEq α] (d other : PyDict α β) : PyDict α β :=
  ⟨other.entries.foldl (fun acc p => dictSet acc p.1 p.2) d.entries⟩

/-- The `_flags` attribute: `{"dataset": {...}, "sample": {...},
"component": {...}}` (fixed string keys, modelled as fields). -/
structure VVFlags (Ent : Type) : Type where
  dataset : PyDict Ent (List Flag)
  sample : PyDict Ent (List Flag)
  component : PyDict Ent (List Flag)
deriving DecidableEq, Repr

/-- `VVProtocol.__init__`: after the `isinstance` assert on the dataset
(`expectedOk`), `_flags` starts as three empty dicts. -/
def VVProtocol.init (Ent : Type) (expectedOk : Bool) : Except Exc (VVFlags Ent) :=
  if expectedOk then .ok ⟨⟨[]⟩, ⟨[]⟩, ⟨[]⟩⟩
  else .error { cls := .assertionError, msg := "dataset MUST be of the expected type for this protocol" }

/-- `VVProtocol.validate_all` (`check_model.py` lines 161-164): call
`validate_dataset`, `validate_samples`, `validate_components` in that order
(state `σ` threaded through the calls) and `dict.update` each returned
mapping into the corresponding internal mapping. -/
def VVProtocol.validate_all {σ Ent : Type} [DecidableEq Ent]
    (validate_dataset validate_samples validate_components : σ → PyDict Ent (List Flag) × σ)
    (fl : VVFlags Ent) (s : σ) : VVFlags Ent × σ :=
  let (dm, s1) := validate_dataset s
  let (sm, s2) := validate_samples s1
  let (cm, s3) := validate_components s2
  ({ dataset := fl.dataset.update dm, sample := fl.sample.update sm,
     component := fl.component.update cm }, s3)

/-! ## Result extractors (to state conclusions without binders) -/

/-- The check object a successful construction put at the returned index. -/
def checkAt? : Except Exc (Nat × St) → Option Check
  | .ok (ref, st) => st.allChecks[ref]?
  | .error _ => none

/-- The state a successful construction returned. -/
def mkSt? : Except Exc (Nat × St) → Option St
  | .ok (_, st) => some st
  | .error _ => none

/-- The registry ids after a successful construction (`[]` on failure). -/
def registryIdsAfter (r : Except Exc (Nat × St)) : List String :=
  ((mkSt? r).map (fun st => st.allChecks.map (·.id))).getD []

/-- The flag a `validate` call returned, if it returned one. -/
def retFlag? : Except Exc VRet × St → Option Flag
  | (.ok (.flagR f), _) => some f
  | _ => none

/-- The flag a successful `Flag` construction returned. -/
def flagOf? : Except Exc (Flag × St) → Option Flag
  | .ok (f, _) => some f
  | .error _ => none

/-- The state a successful `Flag` construction returned. -/
def flagSt? : Except Exc (Flag × St) → Option St
  | .ok (_, st) => some st
  | .error _ => none

/-! ## Concrete example fixtures

A function table with two raising rule bodies, the caller-supplied
`flag_desc` dictionaries, and the states produced by constructing two checks
from an empty registry.  Used to instantiate the theorems below on concrete
input. -/

/-- Function table: body 0 raises `KeyboardInterrupt`, body 1 raises
`ValueError("boom")`, body 2 is a well-behaved rule returning a GREEN flag
built through its check (`lambda c, *args: Flag(code=FlagCode.GREEN,
check=c)`), anything else returns `None`. -/
def tblEx : VTable := fun n => fun st ref _args =>
  match n with
  | 0 => (.error { cls := .keyboardInterrupt, msg := "stop" }, st)
  | 1 => (.error { cls := .valueError, msg := "boom" }, st)
  | 2 =>
    (match Flag.construct st .GREEN ref [] with
     | .ok (f, st1) => (.ok (.flagR f), st1)
     | .error e => (.error e, st))
  | _ => (.ok (.valR .noneV), st)

/-- A caller-supplied `flag_desc` dictionary before construction
(`{FlagCode.GREEN: "ok", FlagCode.RED1: "missing {field}"}`). -/
def fdEx0 : List (FlagCode × String) := [(.GREEN, "ok"), (.RED1, "missing {field}")]

/-- The same dictionary after `__post_init__` injected the DEV_UNHANDLED
template. -/
def fdEx : List (FlagCode × String) :=
  [(.GREEN, "ok"), (.RED1, "missing {field}"), (.DEV_UNHANDLED, devUnhandledTemplate)]

/-- The empty process state with two caller-allocated dictionaries. -/
def st00 : St := { allChecks := [], flagDescs := [fdEx0, fdEx0] }

/-- The first constructed check (dataset scope, rule body 0). -/
def checkEx0 : Check :=
  { proto_description := "Check {x}", description := "Check present",
    id := "DATASET_METADATA_0001", flag_desc := 0, validate_func := 0,
    flags := [], config := [("x", "present")] }

/-- The second constructed check (sample scope, rule body 1). -/
def checkEx1 : Check :=
  { proto_description := "Check {x}", description := "Check present",
    id := "SAMPLE_METADATA_0001", flag_desc := 1, validate_func := 1,
    flags := [], config := [("x", "present")] }

/-- The state after constructing both example checks. -/
def stEx : St := { allChecks := [checkEx0, checkEx1], flagDescs := [fdEx, fdEx] }

/-- The DEV_UNHANDLED flag produced when rule body 1 raises
`ValueError("boom")` inside `Check.validate`. -/
def flagExDev : Flag :=
  { code := .DEV_UNHANDLED, checkRef := 1,
    message_args := [("function", .funcV 1), ("e", .excV { cls := .valueError, msg := "boom" })],
    message := "An unhandled exception occured in <function 1>: boom" }

/-- `stEx` after `flagExDev` was appended to the second check's history. -/
def stExDev : St :=
  { allChecks := [checkEx0, { checkEx1 with flags := [flagExDev] }], flagDescs := [fdEx, fdEx] }

/-- A third check (component scope, well-behaved rule body 2) *sharing* the
first check's `flag_desc` dictionary (heap index 0), as produced by
`copy_with_new_config`-style reuse. -/
def checkEx2 : Check :=
  { proto_description := "Check {x}", description := "Check present",
    id := "COMPONENT_RAWREADS_0001", flag_desc := 0, validate_func := 2,
    flags := [], config := [("x", "present")] }

/-- `stEx` extended with `checkEx2`. -/
def stEx3 : St := { allChecks := [checkEx0, checkEx1, checkEx2], flagDescs := [fdEx, fdEx] }

/-- The GREEN flag rule body 2 produces for `checkEx2`. -/
def flagExGreen : Flag :=
  { code := .GREEN, checkRef := 2, message_args := [], message := "ok" }

/-- `stEx3` after the well-behaved rule recorded its GREEN flag. -/
def stEx3Green : St :=
  { allChecks := [checkEx0, checkEx1, { checkEx2 with flags := [flagExGreen] }],
    flagDescs := [fdEx, fdEx] }

/-- Two distinct flags for the `validate_all` counterexample. -/
def flagG1 : Flag := { code := .GREEN, checkRef := 0, message_args := [], message := "ok" }

/-- See `flagG1`. -/
def flagG2 : Flag := { code := .GREEN, checkRef := 0, message_args := [], message := "ok again" }

/-- A concrete `validate_dataset`: on its first call (state 0) it reports
`flagG1` for entity `0`, on later calls `flagG2`. -/
def vdEx : Nat → PyDict Nat (List Flag) × Nat :=
  fun s => (⟨[(0, [if s = 0 then flagG1 else flagG2])]⟩, s + 1)

/-- A concrete `validate_samples` returning no flags. -/
def vsEx : Nat → PyDict Nat (List Flag) × Nat := fun s => (⟨[]⟩, s)

/-- A concrete `validate_components` returning no flags. -/
def vcEx : Nat → PyDict Nat (List Flag) × Nat := fun s => (⟨[]⟩, s)

/-- First `validate_all` call on a freshly initialized protocol. -/
def c3Run1 : VVFlags Nat × Nat :=
  VVProtocol.validate_all vdEx vsEx vcEx ⟨⟨[]⟩, ⟨[]⟩, ⟨[]⟩⟩ 0

/-- Second `validate_all` call, continuing from the first. -/
def c3Run2 : VVFlags Nat × Nat :=
  VVProtocol.validate_all vdEx vsEx vcEx c3Run1.1 c3Run1.2

/-! ## Helper lemmas: dictionaries and `Except` -/

theorem exceptIsOk_map {ε α β : Type} (f : α → β) (x : Except ε α) :
    exceptIsOk (x.map f) = exceptIsOk x := by
  cases x <;> rfl

theorem dictGet?_set {α β : Type} [DecidableEq α] (d : List (α × β)) (k k' : α) (v : β) :
    dictGet? (dictSet d k v) k' = if k' = k then some v else dictGet? d k' := by
  induction d with
  | nil =>
    by_cases h : k' = k
    · simp [dictSet, dictGet?, List.find?, h]
    · have h' : ¬(k = k') := fun hk => h hk.symm
      simp [dictSet, dictGet?, List.find?, h, h']
  | cons p rest ih =>
    by_cases hpk : p.1 = k
    · by_cases h : k' = k <;>
        simp [dictSet, dictGet?, List.find?, hpk, h, eq_comm, hpk.symm.trans] <;>
        simp_all [dictGet?, eq_comm]
    · by_cases hpk' : p.1 = k'
      · have h : ¬(k' = k) := fun hk => hpk (hpk'.trans hk)
        simp [dictSet, dictGet?, List.find?, hpk, hpk', h]
      · simp only [dictSet, if_neg hpk]
        simp [dictGet?, List.find?, hpk'] at ih ⊢
        exact ih

theorem dictGet?_eq_none_of_not_mem_keys {α β : Type} [DecidableEq α]
    (d : List (α × β)) (k : α) (h : k ∉ d.map Prod.fst) : dictGet? d k = none := by
  induction d with
  | nil => rfl
  | cons p rest ih =>
    simp only [List.map_cons, List.mem_cons] at h
    push_neg at h
    have hne : ¬(p.1 = k) := fun hk => h.1 hk.symm
    simp [dictGet?, List.find?, hne]
    simpa [dictGet?] using ih h.2

theorem foldl_dictSet_get? {α β : Type} [DecidableEq α] (m : List (α × β)) :
    ∀ (d : List (α × β)) (k : α), (m.map Prod.fst).Nodup →
    dictGet? (m.foldl (fun acc p => dictSet acc p.1 p.2) d) k
      = (dictGet? m k).orElse (fun _ => dictGet? d k) := by
  induction m with
  | nil => intro d k _; simp [dictGet?]
  | cons q m' ih =>
    intro d k hm
    simp only [List.map_cons, List.nodup_cons] at hm
    simp only [List.foldl_cons]
    rw [ih (dictSet d q.1 q.2) k hm.2, dictGet?_set]
    by_cases h : k = q.1
    · rw [h, dictGet?_eq_none_of_not_mem_keys m' q.1 hm.1]
      simp [dictGet?, List.find?, Option.orElse]
    · have hne : ¬(q.1 = k) := fun hk => h hk.symm
      simp [dictGet?, List.find?, hne, h]

theorem PyDict.get?_update {α β : Type} [DecidableEq α] (d m : PyDict α β) (k : α)
    (hm : (m.entries.map Prod.fst).Nodup) :
    (d.update m).get? k = (m.get? k).orElse (fun _ => d.get? k) :=
  foldl_dictSet_get? m.entries d.entries k hm

theorem dictGet?_map_isSome {α β γ : Type} [DecidableEq α]
    (d : List (α × β)) (f : β → γ) (k : α) :
    (dictGet? (d.map (fun p => (p.1, f p.2))) k).isSome = (dictGet? d k).isSome := by
  induction d with
  | nil => rfl
  | cons p rest ih =>
    by_cases h : p.1 = k <;> simp [dictGet?, List.find?, h] <;>
      simpa [dictGet?] using ih

/-! ## Helper lemmas: `str.format` key analysis -/

theorem keysGo_fmtGo_isOk (cfg : List (String × String)) :
    ∀ (mode : Option (List Char)) (l : List Char) (ks : List String),
    keysGo mode l = some ks →
    (exceptIsOk (fmtGo cfg mode l) = true ↔ ∀ k ∈ ks, (dictGet? cfg k).isSome = true) := by
  intro mode l
  induction mode, l using keysGo.induct with
  | case1 =>
    intro ks hks
    simp only [keysGo, Option.some.injEq] at hks
    subst hks
    simp [fmtGo, exceptIsOk]
  | case2 val =>
    intro ks hks
    simp [keysGo] at hks
  | case3 rest ih =>
    intro ks hks
    simp only [keysGo] at hks
    simp only [fmtGo, exceptIsOk_map]
    exact ih ks hks
  | case4 rest ih =>
    intro ks hks
    simp only [keysGo] at hks
    simp only [fmtGo, exceptIsOk_map]
    exact ih ks hks
  | case5 rest h ih =>
    intro ks hks
    simp only [keysGo] at hks
    simp only [fmtGo]
    exact ih ks hks
  | case6 tail h =>
    intro ks hks
    simp [keysGo] at hks
  | case7 c rest h1 h2 h3 h4 ih =>
    intro ks hks
    simp only [keysGo] at hks
    simp only [fmtGo, exceptIsOk_map]
    exact ih ks hks
  | case8 acc rest ih =>
    intro ks hks
    simp only [keysGo] at hks
    rcases hmap : keysGo none rest with _ | ks2
    · rw [hmap] at hks
      simp at hks
    · rw [hmap] at hks
      simp at hks
      subst hks
      simp only [fmtGo]
      rcases hv : dictGet? cfg (String.mk acc.reverse) with _ | v
      · simp [exceptIsOk, hv]
      · simp only [hv, exceptIsOk_map]
        rw [ih ks2 hmap]
        simp [hv]
  | case9 acc c rest h ih =>
    intro ks hks
    simp only [keysGo] at hks
    simp only [fmtGo]
    exact ih ks hks

theorem pyFormat_isOk_iff (t : String) (cfg : List (String × String)) (ks : List String)
    (h : templateKeys t = some ks) :
    exceptIsOk (pyFormat t cfg) = true ↔ ∀ k ∈ ks, (dictGet? cfg k).isSome = true := by
  unfold pyFormat
  rw [exceptIsOk_map]
  exact keysGo_fmtGo_isOk cfg none t.data ks h

/-! ## Helper lemmas: the check-id pattern -/


theorem chopLead_eq_some (p : List Char) :
    ∀ l r, chopLead p l = some r ↔ l = p ++ r := by
  induction p with
  | nil =>
    intro l r
    simp [chopLead, eq_comm]
  | cons a ps ih =>
    intro l r
    cases l with
    | nil => simp [chopLead]
    | cons c cs =>
      by_cases h : a = c
      · subst h
        simp [chopLead, ih]
      · have h' : ¬(c = a) := fun hc => h hc.symm
        simp [chopLead, h, h']

theorem sep_split_unique (sep : Char) :
    ∀ (a b t1 t2 : List Char), a ++ sep :: t1 = b ++ sep :: t2 →
    sep ∉ a → sep ∉ b → a = b ∧ t1 = t2 := by
  intro a
  induction a with
  | nil =>
    intro b t1 t2 heq ha hb
    cases b with
    | nil => simpa using heq
    | cons x bs =>
      simp only [List.nil_append, List.cons_append, List.cons.injEq] at heq
      exact absurd (heq.1 ▸ List.mem_cons_self x bs) hb
  | cons x as ih =>
    intro b t1 t2 heq ha hb
    cases b with
    | nil =>
      simp only [List.nil_append, List.cons_append, List.cons.injEq] at heq
      exact absurd (heq.1.symm ▸ List.mem_cons_self x as) ha
    | cons y bs =>
      simp only [List.cons_append, List.cons.injEq] at heq
      obtain ⟨rfl, heq2⟩ := heq
      have hrec := ih bs t1 t2 heq2
        (fun hm => ha (List.mem_cons_of_mem _ hm))
        (fun hm => hb (List.mem_cons_of_mem _ hm))
      exact ⟨by rw [hrec.1], hrec.2⟩

theorem matchTail_iff (l : List Char) :
    matchTail l = true ↔ ∃ w d1 d2 d3 d4, l = w ++ '_' :: [d1, d2, d3, d4] ∧
      w.all (fun c => !c.isDigit) = true ∧
      (d1.isDigit && d2.isDigit && d3.isDigit && d4.isDigit) = true := by
  constructor
  · intro h
    unfold matchTail at h
    split at h
    · next d4 d3 d2 d1 w hpat =>
      simp only [Bool.and_eq_true] at h
      refine ⟨w.reverse, d1, d2, d3, d4, ?_, by simpa using h.2,
        by simp only [Bool.and_eq_true]; exact h.1⟩
      have hl : l = l.reverse.reverse := (List.reverse_reverse l).symm
      rw [hl, hpat]
      simp
    · next => cases h
  · rintro ⟨w, d1, d2, d3, d4, rfl, hw, hd⟩
    unfold matchTail
    rw [show (w ++ '_' :: [d1, d2, d3, d4]).reverse = d4 :: d3 :: d2 :: d1 :: '_' :: w.reverse by simp]
    simp at hd
    simp [hd, hw]

theorem checkIdCore_iff (l : List Char) :
    checkIdCore l = true ↔ ∃ sc, sc ∈ scopeNames ∧ ∃ w d1 d2 d3 d4,
      l = sc.data ++ '_' :: (w ++ '_' :: [d1, d2, d3, d4]) ∧
      w.all (fun c => !c.isDigit) = true ∧
      (d1.isDigit && d2.isDigit && d3.isDigit && d4.isDigit) = true := by
  unfold checkIdCore
  rw [List.any_eq_true]
  constructor
  · rintro ⟨sc, hsc, hmatch⟩
    rcases hchop : chopLead (sc.data ++ ['_']) l with _ | rest
    · rw [hchop] at hmatch
      cases hmatch
    · rw [hchop] at hmatch
      have hl : l = (sc.data ++ ['_']) ++ rest := (chopLead_eq_some _ l rest).1 hchop
      obtain ⟨w, d1, d2, d3, d4, hrest, hw, hd⟩ := (matchTail_iff rest).1 hmatch
      refine ⟨sc, hsc, w, d1, d2, d3, d4, ?_, hw, hd⟩
      rw [hl, hrest]
      simp
  · rintro ⟨sc, hsc, w, d1, d2, d3, d4, rfl, hw, hd⟩
    refine ⟨sc, hsc, ?_⟩
    have hchop : chopLead (sc.data ++ ['_']) (sc.data ++ '_' :: (w ++ '_' :: [d1, d2, d3, d4]))
        = some (w ++ '_' :: [d1, d2, d3, d4]) := by
      rw [chopLead_eq_some]
      simp
    rw [hchop]
    exact (matchTail_iff _).2 ⟨w, d1, d2, d3, d4, rfl, hw, hd⟩

theorem length_eq_four {α : Type} (l : List α) (h : l.length = 4) :
    ∃ a b c d, l = [a, b, c, d] := by
  rcases l with _ | ⟨a, _ | ⟨b, _ | ⟨c, _ | ⟨d, _ | ⟨e, t⟩⟩⟩⟩⟩ <;> simp at h
  exact ⟨a, b, c, d, rfl⟩

theorem id_concat_data (scope word tail : String) :
    (scope ++ "_" ++ word ++ "_" ++ tail).data
      = scope.data ++ '_' :: (word.data ++ '_' :: tail.data) := by
  simp [String.data_append]

theorem scope_no_underscore {sc : String} (h : sc ∈ scopeNames) : '_' ∉ sc.data := by
  simp only [scopeNames, List.mem_cons, List.not_mem_nil, or_false] at h
  rcases h with rfl | rfl | rfl <;> decide

theorem string_eq_of_data_eq {a b : String} (h : a.data = b.data) : a = b := by
  cases a
  cases b
  exact congrArg String.mk h

theorem c5_success (scope word nnnn : String) (hsc : scope ∈ scopeNames)
    (hw : word.data.all (fun c => !c.isDigit) = true)
    (hlen : nnnn.data.length = 4) (hdig : nnnn.data.all Char.isDigit = true) :
    checkIdMatch (scope ++ "_" ++ word ++ "_" ++ nnnn) = true := by
  obtain ⟨d1, d2, d3, d4, hns⟩ := length_eq_four nnnn.data hlen
  have hcore : checkIdCore (scope ++ "_" ++ word ++ "_" ++ nnnn).data = true := by
    rw [checkIdCore_iff]
    refine ⟨scope, hsc, word.data, d1, d2, d3, d4, ?_, hw, ?_⟩
    · rw [id_concat_data, hns]
    · rw [hns] at hdig
      simp only [List.all_cons, List.all_nil, Bool.and_eq_true] at hdig
      simp [hdig]
  unfold checkIdMatch
  rw [hcore]
  simp

theorem getLast?_append_cons (A : List Char) (x : Char) (B : List Char) :
    (A ++ x :: B).getLast? = (x :: B).getLast? := by
  rw [List.getLast?_append]
  rcases hB : (x :: B).getLast? with _ | c
  · rw [List.getLast?_eq_none_iff] at hB
    cases hB
  · simp [Option.or]

theorem c5_wrong_scope (scope word nnnn : String) (hscn : scope ∉ scopeNames)
    (hsu : '_' ∉ scope.data)
    (hw : word.data.all (fun c => !c.isDigit) = true)
    (hlen : nnnn.data.length = 4) (hdig : nnnn.data.all Char.isDigit = true) :
    checkIdMatch (scope ++ "_" ++ word ++ "_" ++ nnnn) = false := by
  obtain ⟨d1, d2, d3, d4, hns⟩ := length_eq_four nnnn.data hlen
  have hcore : checkIdCore (scope ++ "_" ++ word ++ "_" ++ nnnn).data = false := by
    rw [Bool.eq_false_iff]
    intro hc
    obtain ⟨sc, hsc, w, e1, e2, e3, e4, heq, hwall, hd⟩ := (checkIdCore_iff _).1 hc
    rw [id_concat_data] at heq
    have hsep := sep_split_unique '_' scope.data sc.data _ _ heq hsu (scope_no_underscore hsc)
    have hse : scope = sc := string_eq_of_data_eq hsep.1
    rw [hse] at hscn
    exact hscn hsc
  have hlast : (scope ++ "_" ++ word ++ "_" ++ nnnn).data.getLast? = some d4 := by
    rw [id_concat_data, hns, getLast?_append_cons,
      show ('_' :: (word.data ++ '_' :: [d1, d2, d3, d4]))
        = ('_' :: word.data) ++ '_' :: [d1, d2, d3, d4] by simp,
      getLast?_append_cons]
    rfl
  have hd4 : ¬(d4 = '\n') := by
    rw [hns] at hdig
    simp only [List.all_cons, List.all_nil, Bool.and_eq_true, and_true] at hdig
    intro hEq
    rw [hEq] at hdig
    exact absurd hdig.2.2.2 (by decide)
  unfold checkIdMatch
  rw [hcore, hlast]
  simp [hd4]

theorem c5_bad_ordinal (scope word ordinal : String) (hsc : scope ∈ scopeNames)
    (hw : word.data.all (fun c => !c.isDigit) = true)
    (hu : '_' ∉ ordinal.data) (hlastn : ordinal.data.getLast? ≠ some '\n')
    (hnot4 : ¬(ordinal.data.length = 4 ∧ ordinal.data.all Char.isDigit = true)) :
    checkIdMatch (scope ++ "_" ++ word ++ "_" ++ ordinal) = false := by
  have hcore : checkIdCore (scope ++ "_" ++ word ++ "_" ++ ordinal).data = false := by
    rw [Bool.eq_false_iff]
    intro hc
    obtain ⟨sc, hsc', w, e1, e2, e3, e4, heq, hwall, hd⟩ := (checkIdCore_iff _).1 hc
    rw [id_concat_data] at heq
    have hrev : ordinal.data.reverse ++ '_' :: (word.data.reverse ++ '_' :: scope.data.reverse)
        = [e4, e3, e2, e1] ++ '_' :: (w.reverse ++ '_' :: sc.data.reverse) := by
      have h2 := congrArg List.reverse heq
      simpa [List.reverse_append, List.append_assoc] using h2
    simp only [Bool.and_eq_true] at hd
    have hdig4 : ('_' : Char) ∉ [e4, e3, e2, e1] := by
      intro hm
      simp only [List.mem_cons, List.not_mem_nil, or_false] at hm
      rcases hm with hEq | hEq | hEq | hEq
      · rw [← hEq] at hd
        exact absurd hd.2 (by decide)
      · rw [← hEq] at hd
        exact absurd hd.1.2 (by decide)
      · rw [← hEq] at hd
        exact absurd hd.1.1.2 (by decide)
      · rw [← hEq] at hd
        exact absurd hd.1.1.1 (by decide)
    have hsep := sep_split_unique '_' _ _ _ _ hrev
      (fun hm => hu (List.mem_reverse.1 hm)) hdig4
    have hofour : ordinal.data = [e1, e2, e3, e4] := by
      have h3 := congrArg List.reverse hsep.1
      simpa using h3
    apply hnot4
    rw [hofour]
    exact ⟨rfl, by simp [hd.1.1.1, hd.1.1.2, hd.1.2, hd.2]⟩
  have hlastval : (scope ++ "_" ++ word ++ "_" ++ ordinal).data.getLast?
      = ('_' :: ordinal.data).getLast? := by
    rw [id_concat_data, getLast?_append_cons,
      show ('_' :: (word.data ++ '_' :: ordinal.data))
        = ('_' :: word.data) ++ '_' :: ordinal.data by simp,
      getLast?_append_cons]
  have hnl : ∀ c, (scope ++ "_" ++ word ++ "_" ++ ordinal).data.getLast? = some c →
      ¬(c = '\n') := by
    intro c hgl hEq
    rw [hlastval] at hgl
    rcases hod : ordinal.data with _ | ⟨o, os⟩
    · rw [hod] at hgl
      simp [List.getLast?] at hgl
      rw [← hgl] at hEq
      exact absurd hEq (by decide)
    · rw [hod, show ('_' :: o :: os) = ['_'] ++ o :: os from rfl, getLast?_append_cons,
        ← hod] at hgl
      rw [hEq] at hgl
      exact hlastn hgl
  unfold checkIdMatch
  rw [hcore]
  rcases hgl : (scope ++ "_" ++ word ++ "_" ++ ordinal).data.getLast? with _ | c
  · simp
  · simp [hnl c hgl]

/-! ## Registry membership helpers -/

theorem any_id_eq_true {st : St} {id : String} (h : id ∈ st.allChecks.map Check.id) :
    st.allChecks.any (fun c => decide (c.id = id)) = true := by
  rw [List.any_eq_true]
  obtain ⟨c, hc, hcid⟩ := List.mem_map.1 h
  exact ⟨c, hc, by simp [hcid]⟩

theorem any_id_eq_false {st : St} {id : String} (h : id ∉ st.allChecks.map Check.id) :
    st.allChecks.any (fun c => decide (c.id = id)) = false := by
  rw [Bool.eq_false_iff]
  intro hc
  rw [List.any_eq_true] at hc
  obtain ⟨c, hcmem, hdec⟩ := hc
  rw [decide_eq_true_eq] at hdec
  exact h (hdec ▸ List.mem_map_of_mem Check.id hcmem)

/-- Successful `Flag` construction, characterized: when the code has a
template in the owning check's `flag_desc` and every key the template
references is among the message arguments, construction returns the flag
and the state in which it has been appended to `check.flags`. -/
theorem flag_construct_ok (st : St) (code : FlagCode) (ref : Nat)
    (ma : List (String × PyVal)) (c : Check) (template : String) (ks : List String)
    (hc : st.allChecks[ref]? = some c)
    (htm : dictGet? (st.flagDescs.getD c.flag_desc []) code = some template)
    (hks : templateKeys template = some ks)
    (hall : ∀ k ∈ ks, (dictGet? (ma.map (fun p => (p.1, pyStr p.2))) k).isSome = true) :
    ∃ msg, Flag.construct st code ref ma
      = .ok ({ code := code, checkRef := ref, message_args := ma, message := msg },
             { st with allChecks := st.allChecks.set ref
                                      ({ c with flags := c.flags ++
                                        [{ code := code, checkRef := ref, message_args := ma, message := msg }] }) }) := by
  have hfmtok : exceptIsOk (pyFormat template (ma.map (fun p => (p.1, pyStr p.2)))) = true :=
    (pyFormat_isOk_iff _ _ _ hks).2 hall
  rcases hfmt : pyFormat template (ma.map (fun p => (p.1, pyStr p.2))) with e | msg
  · rw [hfmt] at hfmtok
    simp [exceptIsOk] at hfmtok
  · refine ⟨msg, ?_⟩
    simp only [Flag.construct, hc, htm, hfmt, strict_type_checks, if_true]

/-! ## Claim theorems -/

/-- Claim C1 (corrected): the claim inverts the catch condition.
`Check.validate`'s handler is `except ALLOWED_DEV_EXCEPTIONS`, so an
exception *matching* the configured set is the one that is caught and
converted; an exception outside the set propagates (see the
counterexample).  As amended: when `validate_func` raises an exception that
the configured set matches, `validate` does not propagate it and returns a
Flag with code DEV_UNHANDLED whose `message_args` identify the failing
function and the raised exception. -/
theorem validate_dev_unhandled_on_caught_exception :
    ∀ (tbl : VTable) (allowed : List ExcClass) (st : St) (ref : Nat) (args : List PyVal)
      (c : Check) (e : Exc) (st1 : St) (c1 : Check),
    st.allChecks[ref]? = some c →
    tbl c.validate_func st ref args = (.error e, st1) →
    pyCatches allowed e = true →
    st1.allChecks[ref]? = some c1 →
    dictGet? (st1.flagDescs.getD c1.flag_desc []) .DEV_UNHANDLED = some devUnhandledTemplate →
    exceptIsOk (Check.validate tbl allowed st ref args).1 = true
    ∧ (retFlag? (Check.validate tbl allowed st ref args)).map Flag.code = some .DEV_UNHANDLED
    ∧ (retFlag? (Check.validate tbl allowed st ref args)).map Flag.message_args =
        some [("function", .funcV c1.validate_func), ("e", .excV e)] := by
  intro tbl allowed st ref args c e st1 c1 hc htbl hcatch hc1 hfd
  obtain ⟨msg, hctor⟩ := flag_construct_ok st1 .DEV_UNHANDLED ref
    [("function", .funcV c1.validate_func), ("e", .excV e)] c1 devUnhandledTemplate
    ["function", "e"] hc1 hfd (by decide)
    (by
      intro k hk
      fin_cases hk <;> simp [dictGet?, List.find?])
  simp only [Check.validate, hc, htbl, hcatch, if_true, hc1, hctor]
  simp [retFlag?, exceptIsOk]

/-- Witness for C1 (amended): the example check whose rule raises
`ValueError("boom")` yields a DEV_UNHANDLED flag whose message arguments
carry the function object and the exception. -/
theorem validate_dev_unhandled_on_caught_exception_witness :
    exceptIsOk (Check.validate tblEx ALLOWED_DEV_EXCEPTIONS stEx 1 []).1 = true
    ∧ (retFlag? (Check.validate tblEx ALLOWED_DEV_EXCEPTIONS stEx 1 [])).map Flag.code
        = some .DEV_UNHANDLED
    ∧ (retFlag? (Check.validate tblEx ALLOWED_DEV_EXCEPTIONS stEx 1 [])).map Flag.message_args
        = some [("function", .funcV 1), ("e", .excV { cls := .valueError, msg := "boom" })] :=
  validate_dev_unhandled_on_caught_exception tblEx ALLOWED_DEV_EXCEPTIONS stEx 1 [] checkEx1
    { cls := .valueError, msg := "boom" } stEx checkEx1 (by rfl) (by rfl) (by decide)
    (by rfl) (by decide)

/-- Counterexample to C1 as stated: `KeyboardInterrupt` is *not* in the
configured (default) set `ALLOWED_DEV_EXCEPTIONS = (Exception)`, and
`validate` on a rule raising it propagates the exception and returns no
DEV_UNHANDLED flag, while the claim says a non-member is converted into a
Flag. -/
theorem validate_uncaught_exception_propagates_cex :
    pyCatches ALLOWED_DEV_EXCEPTIONS { cls := .keyboardInterrupt, msg := "stop" } = false
    ∧ Check.validate tblEx ALLOWED_DEV_EXCEPTIONS stEx 0 []
        = (.error { cls := .keyboardInterrupt, msg := "stop" }, stEx)
    ∧ retFlag? (Check.validate tblEx ALLOWED_DEV_EXCEPTIONS stEx 0 []) = none :=
  ⟨by decide, by rfl, by rfl⟩

/-- Claim C2 (corrected): the claim inverts the catch condition.  An
exception that *is* a member of `ALLOWED_DEV_EXCEPTIONS` is precisely the
one `except ALLOWED_DEV_EXCEPTIONS` catches and converts into a Flag (see
the counterexample).  As amended: an exception the configured set does
*not* match propagates out of `validate` to the caller. -/
theorem validate_propagates_uncaught_exception :
    ∀ (tbl : VTable) (allowed : List ExcClass) (st : St) (ref : Nat) (args : List PyVal)
      (c : Check) (e : Exc) (st1 : St),
    st.allChecks[ref]? = some c →
    tbl c.validate_func st ref args = (.error e, st1) →
    pyCatches allowed e = false →
    Check.validate tbl allowed st ref args = (.error e, st1) := by
  intro tbl allowed st ref args c e st1 hc htbl hcatch
  simp [Check.validate, hc, htbl, hcatch]

/-- Witness for C2 (amended): the rule raising `KeyboardInterrupt` (outside
the default set) crashes through `validate`. -/
theorem validate_propagates_uncaught_exception_witness :
    Check.validate tblEx ALLOWED_DEV_EXCEPTIONS stEx 0 []
      = (.error { cls := .keyboardInterrupt, msg := "stop" }, stEx) :=
  validate_propagates_uncaught_exception tblEx ALLOWED_DEV_EXCEPTIONS stEx 0 [] checkEx0
    { cls := .keyboardInterrupt, msg := "stop" } stEx (by rfl) (by rfl) (by decide)

/-- Counterexample to C2 as stated: `ValueError` *is* a member of the
default `ALLOWED_DEV_EXCEPTIONS` set, yet `validate` does not propagate it
— it is caught and converted into the DEV_UNHANDLED flag. -/
theorem validate_caught_exception_not_propagated_cex :
    pyCatches ALLOWED_DEV_EXCEPTIONS { cls := .valueError, msg := "boom" } = true
    ∧ Check.validate tblEx ALLOWED_DEV_EXCEPTIONS stEx 1 []
        = (.ok (.flagR flagExDev), stExDev) :=
  ⟨by decide, by rfl⟩

/-- Claim C5 (confirmed): the id-format validation step of `Check`
construction accepts every id of the form `SCOPE_WORD_NNNN` (scope one of
COMPONENT/SAMPLE/DATASET, word non-digit, NNNN exactly four digits): with
the other construction steps satisfied, construction succeeds.  It rejects a
wrong scope word (any underscore-free scope outside the three) and a final
segment that is not exactly four digits (non-digit ordinal or wrong digit
count): construction fails regardless of the remaining arguments.  (The
final-segment hypotheses rule out an embedded underscore and a trailing
newline, which the source regex treats as part of `\D*` and of `$`
respectively.) -/
theorem check_id_format_spec :
    (∀ (st : St) (desc : String) (fdr vf : Nat) (cfg : List (String × String))
      (scope word nnnn : String), scope ∈ scopeNames →
      word.data.all (fun c => !c.isDigit) = true →
      nnnn.data.length = 4 → nnnn.data.all Char.isDigit = true →
      exceptIsOk (pyFormat desc cfg) = true →
      (scope ++ "_" ++ word ++ "_" ++ nnnn) ∉ st.allChecks.map Check.id →
      exceptIsOk (Check.construct st desc (scope ++ "_" ++ word ++ "_" ++ nnnn) fdr vf cfg) = true)
    ∧ (∀ (st : St) (desc : String) (fdr vf : Nat) (cfg : List (String × String))
      (scope word nnnn : String), scope ∉ scopeNames → '_' ∉ scope.data →
      word.data.all (fun c => !c.isDigit) = true →
      nnnn.data.length = 4 → nnnn.data.all Char.isDigit = true →
      exceptIsOk (Check.construct st desc (scope ++ "_" ++ word ++ "_" ++ nnnn) fdr vf cfg) = false)
    ∧ (∀ (st : St) (desc : String) (fdr vf : Nat) (cfg : List (String × String))
      (scope word ordinal : String), scope ∈ scopeNames →
      word.data.all (fun c => !c.isDigit) = true →
      '_' ∉ ordinal.data → ordinal.data.getLast? ≠ some '\n' →
      ¬(ordinal.data.length = 4 ∧ ordinal.data.all Char.isDigit = true) →
      exceptIsOk (Check.construct st desc (scope ++ "_" ++ word ++ "_" ++ ordinal) fdr vf cfg) = false) := by
  refine ⟨?_, ?_, ?_⟩
  · intro st desc fdr vf cfg scope word nnnn hsc hw hlen hdig hfmtok hnm
    rcases hfmt : pyFormat desc cfg with e | d
    · rw [hfmt] at hfmtok
      simp [exceptIsOk] at hfmtok
    · simp [Check.construct, hfmt, c5_success scope word nnnn hsc hw hlen hdig,
        any_id_eq_false hnm, exceptIsOk]
  · intro st desc fdr vf cfg scope word nnnn hscn hsu hw hlen hdig
    rcases hfmt : pyFormat desc cfg with e | d
    · simp [Check.construct, hfmt, exceptIsOk]
    · simp [Check.construct, hfmt, c5_wrong_scope scope word nnnn hscn hsu hw hlen hdig,
        exceptIsOk]
  · intro st desc fdr vf cfg scope word ordinal hsc hw hu hlast hnot4
    rcases hfmt : pyFormat desc cfg with e | d
    · simp [Check.construct, hfmt, exceptIsOk]
    · simp [Check.construct, hfmt, c5_bad_ordinal scope word ordinal hsc hw hu hlast hnot4,
        exceptIsOk]

/-- Witness for C5: a valid id is accepted, a wrong scope and a three-digit
ordinal are rejected (end-to-end scenario C of the spec). -/
theorem check_id_format_spec_witness :
    exceptIsOk (Check.construct st00 "Check {x}" ("DATASET" ++ "_" ++ "METADATA" ++ "_" ++ "0001") 0 0 [("x", "present")]) = true
    ∧ exceptIsOk (Check.construct st00 "Check {x}" ("BADSCOPE" ++ "_" ++ "X" ++ "_" ++ "0001") 0 0 [("x", "present")]) = false
    ∧ exceptIsOk (Check.construct st00 "Check {x}" ("DATASET" ++ "_" ++ "X" ++ "_" ++ "123") 0 0 [("x", "present")]) = false :=
  ⟨check_id_format_spec.1 st00 "Check {x}" 0 0 [("x", "present")] "DATASET" "METADATA" "0001"
      (by decide) (by decide) (by decide) (by decide) (by decide) (by decide),
   check_id_format_spec.2.1 st00 "Check {x}" 0 0 [("x", "present")] "BADSCOPE" "X" "0001"
      (by decide) (by decide) (by decide) (by decide) (by decide),
   check_id_format_spec.2.2 st00 "Check {x}" 0 0 [("x", "present")] "DATASET" "X" "123"
      (by decide) (by decide) (by decide) (by decide) (by decide)⟩

/-- Claim C6 (confirmed): constructing a `Check` whose id is already carried
by a registered check fails, whatever the other arguments are; and
construction preserves the invariant that the registered ids are pairwise
distinct, so two checks with equal ids never reside in `allChecks`
together. -/
theorem check_id_uniqueness_spec :
    ∀ (st : St) (desc id : String) (fdr vf : Nat) (cfg : List (String × String)),
    (id ∈ st.allChecks.map Check.id →
      exceptIsOk (Check.construct st desc id fdr vf cfg) = false)
    ∧ ((st.allChecks.map Check.id).Nodup →
      (registryIdsAfter (Check.construct st desc id fdr vf cfg)).Nodup) := by
  intro st desc id fdr vf cfg
  constructor
  · intro hmem
    rcases hfmt : pyFormat desc cfg with e | d
    · simp [Check.construct, hfmt, exceptIsOk]
    · by_cases hid : checkIdMatch id <;>
        simp [Check.construct, hfmt, hid, any_id_eq_true hmem, exceptIsOk]
  · intro hnd
    rcases hfmt : pyFormat desc cfg with e | d
    · simp [registryIdsAfter, mkSt?, Check.construct, hfmt]
    · by_cases hid : checkIdMatch id
      · by_cases hany : st.allChecks.any (fun c => decide (c.id = id)) = true
        · simp [registryIdsAfter, mkSt?, Check.construct, hfmt, hid, hany]
        · have hnotmem : id ∉ st.allChecks.map Check.id := fun hmem =>
            hany (any_id_eq_true hmem)
          rw [Bool.not_eq_true] at hany
          simp [registryIdsAfter, mkSt?, Check.construct, hfmt, hid, hany, St.setFlagDesc,
            List.nodup_append, hnd, List.disjoint_singleton]
          intro x hx hxid
          exact hnotmem (hxid ▸ List.mem_map_of_mem Check.id hx)
      · simp [registryIdsAfter, mkSt?, Check.construct, hfmt, hid]

/-- Witness for C6: re-using the id of the first example check fails even
with a different description and config, and the registry ids stay
pairwise distinct. -/
theorem check_id_uniqueness_spec_witness :
    exceptIsOk (Check.construct stEx "other" "DATASET_METADATA_0001" 1 1 []) = false
    ∧ (registryIdsAfter (Check.construct stEx "other" "DATASET_METADATA_0001" 1 1 [])).Nodup :=
  ⟨(check_id_uniqueness_spec stEx "other" "DATASET_METADATA_0001" 1 1 []).1 (by decide),
   (check_id_uniqueness_spec stEx "other" "DATASET_METADATA_0001" 1 1 []).2 (by decide)⟩

/-- Claim C9 (confirmed): `Check` construction formats the description
against the config immediately: it fails whenever the template references a
placeholder key absent from the config, and (with a valid, fresh id) it
succeeds whenever every referenced key is present — the config may omit
unreferenced keys and may contain extra keys. -/
theorem construct_description_formatting_spec :
    ∀ (st : St) (desc id : String) (fdr vf : Nat) (cfg : List (String × String))
      (ks : List String), templateKeys desc = some ks →
    ((∃ k ∈ ks, dictGet? cfg k = none) →
      exceptIsOk (Check.construct st desc id fdr vf cfg) = false)
    ∧ ((∀ k ∈ ks, (dictGet? cfg k).isSome = true) → checkIdMatch id = true →
      id ∉ st.allChecks.map Check.id →
      exceptIsOk (Check.construct st desc id fdr vf cfg) = true) := by
  intro st desc id fdr vf cfg ks hks
  constructor
  · rintro ⟨k, hkmem, hknone⟩
    rcases hfmt : pyFormat desc cfg with e | d
    · simp [Check.construct, hfmt, exceptIsOk]
    · have hok : exceptIsOk (pyFormat desc cfg) = true := by rw [hfmt]; rfl
      have := (pyFormat_isOk_iff desc cfg ks hks).1 hok k hkmem
      rw [hknone] at this
      cases this
  · intro hall hid hnm
    have hfmtok : exceptIsOk (pyFormat desc cfg) = true :=
      (pyFormat_isOk_iff desc cfg ks hks).2 hall
    rcases hfmt : pyFormat desc cfg with e | d
    · rw [hfmt] at hfmtok
      simp [exceptIsOk] at hfmtok
    · simp [Check.construct, hfmt, hid, any_id_eq_false hnm, exceptIsOk]

/-- Witness for C9: `"Check {x}"` fails against an empty config and
succeeds against `{"x": ..., "extra": ...}` (extra keys tolerated). -/
theorem construct_description_formatting_spec_witness :
    exceptIsOk (Check.construct st00 "Check {x}" "DATASET_METADATA_0002" 0 0 []) = false
    ∧ exceptIsOk (Check.construct st00 "Check {x}" "DATASET_METADATA_0002" 0 0
        [("x", "present"), ("extra", "unused")]) = true :=
  ⟨(construct_description_formatting_spec st00 "Check {x}" "DATASET_METADATA_0002" 0 0 []
      ["x"] (by decide)).1 ⟨"x", by decide, by decide⟩,
   (construct_description_formatting_spec st00 "Check {x}" "DATASET_METADATA_0002" 0 0
      [("x", "present"), ("extra", "unused")] ["x"] (by decide)).2
      (by decide) (by decide) (by decide)⟩

/-- Claim C3 (corrected): `validate_all` does call dataset → samples →
components in that fixed order (the state threading below), and the `flags`
property holds the union of the three returned mappings under the
`dataset`/`sample`/`component` keys — but the merge is `dict.update`: for an
entity key already present, the *new list replaces the old one* (it is not
merged), so a second call that reports the same key drops the flags the
first call recorded (see the counterexample).  Keys absent from the new
mapping are preserved. -/
theorem validate_all_update_semantics :
    ∀ (σ Ent : Type) [inst : DecidableEq Ent]
      (vd vs vc : σ → PyDict Ent (List Flag) × σ)
      (fl : VVFlags Ent) (s : σ) (dm sm cm : PyDict Ent (List Flag)) (s1 s2 s3 : σ)
      (k : Ent),
    vd s = (dm, s1) → vs s1 = (sm, s2) → vc s2 = (cm, s3) →
    (dm.entries.map Prod.fst).Nodup → (sm.entries.map Prod.fst).Nodup →
    (cm.entries.map Prod.fst).Nodup →
    VVProtocol.validate_all vd vs vc fl s
      = (⟨fl.dataset.update dm, fl.sample.update sm, fl.component.update cm⟩, s3)
    ∧ (VVProtocol.validate_all vd vs vc fl s).1.dataset.get? k
        = ((dm.get? k).orElse fun _ => fl.dataset.get? k)
    ∧ (VVProtocol.validate_all vd vs vc fl s).1.sample.get? k
        = ((sm.get? k).orElse fun _ => fl.sample.get? k)
    ∧ (VVProtocol.validate_all vd vs vc fl s).1.component.get? k
        = ((cm.get? k).orElse fun _ => fl.component.get? k) := by
  intro σ Ent inst vd vs vc fl s dm sm cm s1 s2 s3 k hd hs hc hnd hns hnc
  have hmain : VVProtocol.validate_all vd vs vc fl s
      = (⟨fl.dataset.update dm, fl.sample.update sm, fl.component.update cm⟩, s3) := by
    simp only [VVProtocol.validate_all, hd, hs, hc]
  refine ⟨hmain, ?_, ?_, ?_⟩
  · rw [hmain]
    exact PyDict.get?_update fl.dataset dm k hnd
  · rw [hmain]
    exact PyDict.get?_update fl.sample sm k hns
  · rw [hmain]
    exact PyDict.get?_update fl.component cm k hnc

/-- Witness for C3 (amended): the first `validate_all` call on a fresh
protocol, with the lookup semantics of the update. -/
theorem validate_all_update_semantics_witness :
    VVProtocol.validate_all vdEx vsEx vcEx (⟨⟨[]⟩, ⟨[]⟩, ⟨[]⟩⟩ : VVFlags Nat) 0
      = (⟨PyDict.update ⟨[]⟩ ⟨[(0, [flagG1])]⟩, PyDict.update ⟨[]⟩ ⟨[]⟩,
          PyDict.update ⟨[]⟩ ⟨[]⟩⟩, 1)
    ∧ (VVProtocol.validate_all vdEx vsEx vcEx (⟨⟨[]⟩, ⟨[]⟩, ⟨[]⟩⟩ : VVFlags Nat) 0).1.dataset.get? 0
        = ((PyDict.get? ⟨[(0, [flagG1])]⟩ 0).orElse
            fun _ => PyDict.get? (⟨[]⟩ : PyDict Nat (List Flag)) 0)
    ∧ (VVProtocol.validate_all vdEx vsEx vcEx (⟨⟨[]⟩, ⟨[]⟩, ⟨[]⟩⟩ : VVFlags Nat) 0).1.sample.get? 0
        = ((PyDict.get? (⟨[]⟩ : PyDict Nat (List Flag)) 0).orElse
            fun _ => PyDict.get? (⟨[]⟩ : PyDict Nat (List Flag)) 0)
    ∧ (VVProtocol.validate_all vdEx vsEx vcEx (⟨⟨[]⟩, ⟨[]⟩, ⟨[]⟩⟩ : VVFlags Nat) 0).1.component.get? 0
        = ((PyDict.get? (⟨[]⟩ : PyDict Nat (List Flag)) 0).orElse
            fun _ => PyDict.get? (⟨[]⟩ : PyDict Nat (List Flag)) 0) :=
  validate_all_update_semantics Nat Nat vdEx vsEx vcEx ⟨⟨[]⟩, ⟨[]⟩, ⟨[]⟩⟩ 0
    ⟨[(0, [flagG1])]⟩ ⟨[]⟩ ⟨[]⟩ 1 1 1 0 (by rfl) (by rfl) (by rfl)
    (by decide) (by decide) (by decide)

/-- Counterexample to C3 as stated: the second `validate_all` call reports
entity `0` again; `dict.update` replaces the stored list, so `flagG1`
recorded by the first call is dropped from the `flags` property. -/
theorem validate_all_second_call_drops_flags_cex :
    c3Run1.1.dataset.get? 0 = some [flagG1]
    ∧ c3Run2.1.dataset.get? 0 = some [flagG2]
    ∧ flagG1 ≠ flagG2
    ∧ ¬(flagG1 ∈ (c3Run2.1.dataset.get? 0).getD []) := by
  refine ⟨by decide, by decide, by decide, by decide⟩

/-- Claim C4 (corrected): names that share a rank are *aliases of one
member*, not distinct members — Python `enum.Enum` deduplicates by value, so
`FlagCode.HALT2 is FlagCode.HALT1` (see the counterexample).  As amended:
HALT1..HALT5 all denote the single member `HALT1` of rank 80, RED1..RED5 the
member `RED1` of rank 50, YELLOW1..YELLOW5 the member `YELLOW1` of rank 30;
members of different groups remain distinguishable. -/
theorem flagcode_rank_groups_are_aliases :
    (["HALT1", "HALT2", "HALT3", "HALT4", "HALT5"].all
        (fun n => decide (FlagCode.ofName n = some FlagCode.HALT1)) = true)
    ∧ (["RED1", "RED2", "RED3", "RED4", "RED5"].all
        (fun n => decide (FlagCode.ofName n = some FlagCode.RED1)) = true)
    ∧ (["YELLOW1", "YELLOW2", "YELLOW3", "YELLOW4", "YELLOW5"].all
        (fun n => decide (FlagCode.ofName n = some FlagCode.YELLOW1)) = true)
    ∧ FlagCode.rank FlagCode.HALT1 = 80
    ∧ FlagCode.rank FlagCode.RED1 = 50
    ∧ FlagCode.rank FlagCode.YELLOW1 = 30
    ∧ FlagCode.HALT1 ≠ FlagCode.RED1 ∧ FlagCode.RED1 ≠ FlagCode.YELLOW1
    ∧ FlagCode.ofName "DEV_HANDLED" ≠ FlagCode.ofName "DEV_UNHANDLED"
    ∧ FlagCode.ofName "GREEN" ≠ FlagCode.ofName "INFO" := by
  decide

/-- Counterexample to C4 as stated: `HALT1` and `HALT2` are two distinct
names of rank 80, yet they denote *equal* members (the claim says the
members of distinct names in a rank group are not equal). -/
theorem flagcode_distinct_names_equal_members_cex :
    ("HALT1" ≠ "HALT2")
    ∧ FlagCode.ofName "HALT1" = some FlagCode.HALT1
    ∧ FlagCode.ofName "HALT2" = some FlagCode.HALT1
    ∧ FlagCode.ofName "HALT1" = FlagCode.ofName "HALT2"
    ∧ FlagCode.rank FlagCode.HALT1 = 80 := by
  decide

/-- Claim C7 (confirmed): `Flag` construction fails when the code is not a
key of the owning check's `flag_desc`, and when the message template
references a key absent from `message_args`; a successful construction
appends the flag to `check.flags` exactly once (the new history is the old
history plus that one flag). -/
theorem flag_construct_spec :
    ∀ (st : St) (code : FlagCode) (ref : Nat) (ma : List (String × PyVal)) (c : Check),
    st.allChecks[ref]? = some c →
    (dictGet? (st.flagDescs.getD c.flag_desc []) code = none →
      exceptIsOk (Flag.construct st code ref ma) = false)
    ∧ (∀ (template : String) (ks : List String) (k : String),
      dictGet? (st.flagDescs.getD c.flag_desc []) code = some template →
      templateKeys template = some ks → k ∈ ks → dictGet? ma k = none →
      exceptIsOk (Flag.construct st code ref ma) = false)
    ∧ (∀ (template : String) (ks : List String),
      dictGet? (st.flagDescs.getD c.flag_desc []) code = some template →
      templateKeys template = some ks →
      (∀ k ∈ ks, (dictGet? ma k).isSome = true) →
      ((flagSt? (Flag.construct st code ref ma)).bind
          (fun st2 => st2.allChecks[ref]?)).map Check.flags
        = (flagOf? (Flag.construct st code ref ma)).map (fun f => c.flags ++ [f])
      ∧ (flagOf? (Flag.construct st code ref ma)).map Flag.code = some code
      ∧ (flagOf? (Flag.construct st code ref ma)).isSome = true) := by
  intro st code ref ma c hc
  refine ⟨?_, ?_, ?_⟩
  · intro hnone
    simp only [Flag.construct, hc, hnone]
    rfl
  · intro template ks k htm hks hkmem hknone
    have hmap : dictGet? (ma.map (fun p => (p.1, pyStr p.2))) k = none := by
      have h2 := dictGet?_map_isSome ma pyStr k
      rw [hknone] at h2
      simpa using h2
    have hfmtfail : ¬(exceptIsOk (pyFormat template (ma.map (fun p => (p.1, pyStr p.2)))) = true) := by
      intro hok
      have h2 := (pyFormat_isOk_iff _ _ _ hks).1 hok k hkmem
      rw [hmap] at h2
      cases h2
    rcases hfmt : pyFormat template (ma.map (fun p => (p.1, pyStr p.2))) with e | msg
    · simp only [Flag.construct, hc, htm, hfmt]
      rfl
    · rw [hfmt] at hfmtfail
      simp [exceptIsOk] at hfmtfail
  · intro template ks htm hks hall
    have hall2 : ∀ k ∈ ks, (dictGet? (ma.map (fun p => (p.1, pyStr p.2))) k).isSome = true := by
      intro k hk
      rw [dictGet?_map_isSome]
      exact hall k hk
    obtain ⟨msg, hctor⟩ := flag_construct_ok st code ref ma c template ks hc htm hks hall2
    rw [hctor]
    have hlt : ref < st.allChecks.length := by
      by_contra hge
      rw [not_lt] at hge
      rw [List.getElem?_eq_none_iff.2 hge] at hc
      cases hc
    refine ⟨?_, by simp [flagOf?], by simp [flagOf?]⟩
    simp only [flagSt?, flagOf?, Option.bind_some, Option.some_bind]
    rw [List.getElem?_set_self hlt]
    simp

/-- Witness for C7: on the first example check, `YELLOW1` (not a key of its
`flag_desc`) fails, `RED1` with template `"missing {field}"` and empty
message arguments fails, and a GREEN flag construction appends exactly one
flag to the history. -/
theorem flag_construct_spec_witness :
    exceptIsOk (Flag.construct stEx .YELLOW1 0 []) = false
    ∧ exceptIsOk (Flag.construct stEx .RED1 0 []) = false
    ∧ (((flagSt? (Flag.construct stEx .GREEN 0 [])).bind
          (fun st2 => st2.allChecks[0]?)).map Check.flags
        = (flagOf? (Flag.construct stEx .GREEN 0 [])).map (fun f => checkEx0.flags ++ [f])
      ∧ (flagOf? (Flag.construct stEx .GREEN 0 [])).map Flag.code = some .GREEN
      ∧ (flagOf? (Flag.construct stEx .GREEN 0 [])).isSome = true) :=
  ⟨(flag_construct_spec stEx .YELLOW1 0 [] checkEx0 (by rfl)).1 (by decide),
   (flag_construct_spec stEx .RED1 0 [] checkEx0 (by rfl)).2.1 "missing {field}"
      ["field"] "field" (by decide) (by decide) (by decide) (by decide),
   (flag_construct_spec stEx .GREEN 0 [] checkEx0 (by rfl)).2.2 "ok" []
      (by decide) (by decide) (fun k hk => absurd hk (List.not_mem_nil k))⟩

/-- Claim C8 (confirmed): `copy_with_new_config` yields a check whose flag
history starts empty no matter how many flags the source accumulated, which
shares the source's unformatted description template, `flag_desc` dictionary
(same heap reference) and `validate_func`, and which carries the freshly
supplied id and config. -/
theorem copy_with_new_config_spec :
    ∀ (st : St) (ref : Nat) (c : Check) (id : String) (cfg : List (String × String)),
    st.allChecks[ref]? = some c →
    exceptIsOk (pyFormat c.proto_description cfg) = true →
    checkIdMatch id = true →
    id ∉ st.allChecks.map Check.id →
    (checkAt? (Check.copy_with_new_config st ref id cfg)).map Check.flags = some []
    ∧ (checkAt? (Check.copy_with_new_config st ref id cfg)).map Check.proto_description
        = some c.proto_description
    ∧ (checkAt? (Check.copy_with_new_config st ref id cfg)).map Check.flag_desc
        = some c.flag_desc
    ∧ (checkAt? (Check.copy_with_new_config st ref id cfg)).map Check.validate_func
        = some c.validate_func
    ∧ (checkAt? (Check.copy_with_new_config st ref id cfg)).map Check.id = some id
    ∧ (checkAt? (Check.copy_with_new_config st ref id cfg)).map Check.config = some cfg := by
  intro st ref c id cfg hc hfmtok hid hnm
  rcases hfmt : pyFormat c.proto_description cfg with e | d
  · rw [hfmt] at hfmtok
    simp [exceptIsOk] at hfmtok
  · have hcopy : checkAt? (Check.copy_with_new_config st ref id cfg)
        = some { proto_description := c.proto_description, description := d, id := id,
                 flag_desc := c.flag_desc, validate_func := c.validate_func,
                 flags := [], config := cfg } := by
      simp only [Check.copy_with_new_config, hc, Check.construct, hfmt, hid,
        Bool.true_eq_false, if_false, any_id_eq_false hnm, checkAt?, St.setFlagDesc]
      exact List.getElem?_concat_length st.allChecks _
    rw [hcopy]
    refine ⟨rfl, rfl, rfl, rfl, rfl, rfl⟩

/-- Witness for C8: copying the example check that has already accumulated a
flag yields a copy with an empty history, the shared template, dictionary
and rule, and the new id and config. -/
theorem copy_with_new_config_spec_witness :
    (checkAt? (Check.copy_with_new_config stExDev 1 "COMPONENT_COPY_0001" [("x", "again")])).map Check.flags = some []
    ∧ (checkAt? (Check.copy_with_new_config stExDev 1 "COMPONENT_COPY_0001" [("x", "again")])).map Check.proto_description = some "Check {x}"
    ∧ (checkAt? (Check.copy_with_new_config stExDev 1 "COMPONENT_COPY_0001" [("x", "again")])).map Check.flag_desc = some 1
    ∧ (checkAt? (Check.copy_with_new_config stExDev 1 "COMPONENT_COPY_0001" [("x", "again")])).map Check.validate_func = some 1
    ∧ (checkAt? (Check.copy_with_new_config stExDev 1 "COMPONENT_COPY_0001" [("x", "again")])).map Check.id = some "COMPONENT_COPY_0001"
    ∧ (checkAt? (Check.copy_with_new_config stExDev 1 "COMPONENT_COPY_0001" [("x", "again")])).map Check.config = some [("x", "again")] :=
  copy_with_new_config_spec stExDev 1 ({ checkEx1 with flags := [flagExDev] })
    "COMPONENT_COPY_0001" [("x", "again")] (by rfl) (by decide) (by decide) (by decide)

/-- Claim C10 (confirmed): construction inserts the DEV_UNHANDLED template
into the *caller-supplied* `flag_desc` dictionary in place (same heap slot,
heap size unchanged); `copy_with_new_config` hands the same dictionary
reference to the copy; and a write through one holder of the reference is
readable through any other holder of the same reference. -/
theorem flag_desc_shared_mutation_spec :
    (∀ (st : St) (desc id : String) (fdr vf : Nat) (cfg : List (String × String)),
      fdr < st.flagDescs.length →
      exceptIsOk (pyFormat desc cfg) = true → checkIdMatch id = true →
      id ∉ st.allChecks.map Check.id →
      (mkSt? (Check.construct st desc id fdr vf cfg)).map (fun st2 => st2.flagDescs.length)
        = some st.flagDescs.length
      ∧ (mkSt? (Check.construct st desc id fdr vf cfg)).map
          (fun st2 => dictGet? (st2.flagDescs.getD fdr []) FlagCode.DEV_UNHANDLED)
        = some (some devUnhandledTemplate))
    ∧ (∀ (st : St) (ref : Nat) (c : Check) (id : String) (cfg : List (String × String)),
      st.allChecks[ref]? = some c →
      exceptIsOk (pyFormat c.proto_description cfg) = true → checkIdMatch id = true →
      id ∉ st.allChecks.map Check.id →
      (checkAt? (Check.copy_with_new_config st ref id cfg)).map Check.flag_desc
        = some c.flag_desc)
    ∧ (∀ (st : St) (c1 c2 : Check) (code : FlagCode) (template : String),
      c1.flag_desc = c2.flag_desc → c2.flag_desc < st.flagDescs.length →
      dictGet? ((st.setFlagDesc c1.flag_desc code template).flagDescs.getD c2.flag_desc [])
        code = some template) := by
  refine ⟨?_, ?_, ?_⟩
  · intro st desc id fdr vf cfg hlt hfmtok hid hnm
    rcases hfmt : pyFormat desc cfg with e | d
    · rw [hfmt] at hfmtok
      simp [exceptIsOk] at hfmtok
    · have hmk : mkSt? (Check.construct st desc id fdr vf cfg)
          = some ((St.mk (st.allChecks ++
              [{ proto_description := desc, description := d, id := id, flag_desc := fdr,
                 validate_func := vf, flags := [], config := cfg }]) st.flagDescs).setFlagDesc
                   fdr .DEV_UNHANDLED devUnhandledTemplate) := by
        simp only [Check.construct, hfmt, hid, Bool.true_eq_false, if_false,
          any_id_eq_false hnm, Bool.false_eq_true, mkSt?]
      rw [hmk]
      constructor
      · simp [St.setFlagDesc]
      · simp only [St.setFlagDesc, Option.map_some', Option.some.injEq,
          List.getD_eq_getElem?_getD]
        rw [List.getElem?_set_self (by simpa using hlt)]
        simp only [Option.getD_some]
        rw [dictGet?_set]
        simp
  · intro st ref c id cfg hc hfmtok hid hnm
    rcases hfmt : pyFormat c.proto_description cfg with e | d
    · rw [hfmt] at hfmtok
      simp [exceptIsOk] at hfmtok
    · have hcopy : checkAt? (Check.copy_with_new_config st ref id cfg)
        = some { proto_description := c.proto_description, description := d, id := id,
                 flag_desc := c.flag_desc, validate_func := c.validate_func,
                 flags := [], config := cfg } := by
        simp only [Check.copy_with_new_config, hc, Check.construct, hfmt, hid,
          Bool.true_eq_false, if_false, any_id_eq_false hnm, checkAt?, St.setFlagDesc]
        exact List.getElem?_concat_length st.allChecks _
      rw [hcopy]
      rfl
  · intro st c1 c2 code template hshare hlt
    rw [St.setFlagDesc, hshare]
    simp only [List.getD_eq_getElem?_getD]
    rw [List.getElem?_set_self (by simpa using hlt)]
    simp only [Option.getD_some]
    rw [dictGet?_set]
    simp

/-- Witness for C10: constructing into heap slot 0 mutates that slot in
place; a copy of the first example check reports the same `flag_desc` slot;
and a write through `checkEx0`'s reference is readable through `checkEx2`'s
(they share slot 0). -/
theorem flag_desc_shared_mutation_spec_witness :
    ((mkSt? (Check.construct st00 "Check {x}" "DATASET_METADATA_0003" 0 0 [("x", "present")])).map
        (fun st2 => st2.flagDescs.length) = some st00.flagDescs.length
      ∧ (mkSt? (Check.construct st00 "Check {x}" "DATASET_METADATA_0003" 0 0 [("x", "present")])).map
          (fun st2 => dictGet? (st2.flagDescs.getD 0 []) FlagCode.DEV_UNHANDLED)
        = some (some devUnhandledTemplate))
    ∧ (checkAt? (Check.copy_with_new_config stEx 0 "SAMPLE_COPY_0001" [("x", "y")])).map Check.flag_desc
        = some checkEx0.flag_desc
    ∧ dictGet? ((stEx3.setFlagDesc checkEx0.flag_desc .INFO "note").flagDescs.getD checkEx2.flag_desc [])
        .INFO = some "note" :=
  ⟨flag_desc_shared_mutation_spec.1 st00 "Check {x}" "DATASET_METADATA_0003" 0 0
      [("x", "present")] (by decide) (by decide) (by decide) (by decide),
   flag_desc_shared_mutation_spec.2.1 stEx 0 checkEx0 "SAMPLE_COPY_0001" [("x", "y")]
      (by rfl) (by decide) (by decide) (by decide),
   flag_desc_shared_mutation_spec.2.2 stEx3 checkEx0 checkEx2 .INFO "note"
      (by rfl) (by decide)⟩

/-! ## End-to-end sanity checks (spec scenarios A and B)

These pin the example fixtures to the operations: the two example checks are
exactly what `Check.construct` builds from an empty registry, a well-behaved
rule's GREEN flag is returned and recorded, and the `flag_desc` dictionaries
were mutated in place. -/

theorem construct_example1 :
    Check.construct st00 "Check {x}" "DATASET_METADATA_0001" 0 0 [("x", "present")]
      = .ok (0, { allChecks := [checkEx0], flagDescs := [fdEx, fdEx0] }) := by
  decide

theorem construct_example2 :
    Check.construct { allChecks := [checkEx0], flagDescs := [fdEx, fdEx0] }
      "Check {x}" "SAMPLE_METADATA_0001" 1 1 [("x", "present")] = .ok (1, stEx) := by
  decide

theorem validate_green_example :
    Check.validate tblEx ALLOWED_DEV_EXCEPTIONS stEx3 2 []
      = (.ok (.flagR flagExGreen), stEx3Green) := by
  decide

end CheckModel
